import Mathlib

/-!
# Teruel-magico: verification of the itinerary data model and view logic

Shallow embedding of the TypeScript sources of the Teruel-magico
travel-itinerary application:

* `src/types.ts` — the data model (`Activity`, `DayPlan`, `ItineraryResult`);
* `src/components/ItineraryView.tsx` — geo utilities, the map/list view
  synchroniser (filtering, marker building, travel-time backfill, comments,
  marker-click handling, current-day resolution);
* `src/unnamed/part_001` (the application root component) — the save-history
  logic `saveItineraryToHistory` and the generation error handling
  `handleGenerate`;
* `src/unnamed/part_000` (the generation service) — `generateItinerary`
  credential check and failure propagation.

JavaScript numbers are modelled as rationals (`ℚ`); optional strings as
`Option String` with an explicit JS-truthiness predicate (`undefined` and
the empty string are falsy).  The haversine distance
`getDistanceFromLatLonInKm` is transcendental (sin/cos/atan2 over floats),
so functions that consume distances are parametrised by an abstract
distance function `dist : Coordinates → Coordinates → ℚ`; every theorem
about them holds for all such functions, in particular for the haversine.
-/

namespace Teruel

/-- Activity categories, `src/types.ts` lines 38. -/
inductive ActivityType where
  | VISIT
  | FOOD
  | LODGING
  | TRAVEL
deriving DecidableEq, BEq, Repr

/-- Content language tag, `src/types.ts` line 2. -/
inductive Language where
  | es
  | en
deriving DecidableEq, BEq, Repr

/-- `Coordinates` of `src/types.ts` lines 28-31; float fields modelled as `ℚ`. -/
structure Coordinates where
  lat : ℚ
  lng : ℚ
deriving DecidableEq, Repr

/-- `Activity` of `src/types.ts` lines 33-44. -/
structure Activity where
  time : String
  placeName : String
  description : String
  priceEstimate : String
  type : ActivityType
  address : Option String
  locationUrl : Option String
  coordinates : Option Coordinates
  travelTime : Option String
  transportDetails : Option String
deriving DecidableEq, Repr

/-- `DayPlan` of `src/types.ts` lines 46-50. -/
structure DayPlan where
  dayNumber : ℕ
  title : String
  activities : List Activity
deriving DecidableEq, Repr

/-- `ItineraryResult` of `src/types.ts` lines 52-59.  `userComments` is a
`Record<string, string>`, modelled as an association list whose lookup takes
the first (most recent) binding. -/
structure ItineraryResult where
  title : String
  description : String
  days : List DayPlan
  timestamp : Option ℕ
  language : Option Language
  userComments : Option (List (String × String))
deriving DecidableEq, Repr

/-! ## Geo utilities (`src/components/ItineraryView.tsx` lines 50-77) -/

/-- JavaScript `Math.round`: round half toward positive infinity,
`Math.round x = ⌊x + 0.5⌋`. -/
def jsRound (q : ℚ) : ℤ := (q + 1/2).floor

/-- `estimateTravelTime` of `ItineraryView.tsx` lines 65-72: assume 60 km/h;
under one hour render "N min", otherwise "Hh Mm" with the minutes component
rounded independently of the hours component. -/
def estimateTravelTime (distanceKm : ℚ) : String :=
  let hours := distanceKm / 60
  if hours < 1 then toString (jsRound (hours * 60)) ++ " min"
  else
    let h := hours.floor
    let m := jsRound ((hours - h) * 60)
    toString h ++ "h " ++ toString m ++ "m"

/-- `suggestTransportDetails` of `ItineraryView.tsx` lines 74-77. -/
def suggestTransportDetails (distanceKm : ℚ) : String :=
  if distanceKm < 2 then "Caminar / Walk" else "Coche / Car / Bus"

/-- `getActivityKey` of `ItineraryView.tsx` line 79. -/
def getActivityKey (act : Activity) : String := act.placeName ++ "-" ++ act.time

/-! ## String helpers: JS `String.prototype.includes` and truthiness -/

/-- Character-list model of JS `hay.includes(needle)`: the needle occurs as a
contiguous run somewhere in the haystack (the empty needle always occurs). -/
def charListIncludes (needle : List Char) : List Char → Bool
  | [] => needle.isEmpty
  | c :: rest => needle.isPrefixOf (c :: rest) || charListIncludes needle rest

/-- JS `hay.includes(needle)` on strings. -/
def strIncludes (hay needle : String) : Bool :=
  charListIncludes needle.toList hay.toList

/-- JS truthiness of an optional string: `undefined` and `""` are falsy. -/
def strTruthy : Option String → Bool
  | some s => !s.isEmpty
  | none => false

/-! ## Filtering (`ItineraryView.tsx` lines 347-351 and 774-780)

The list presentation filters with
`filters[a.type] && (!searchQuery || a.placeName.toLowerCase().includes(q) ||
a.description.toLowerCase().includes(q))`; the marker pass tests the
syntactically identical expression (lines 347-352). -/

/-- The search predicate shared by the list filter (lines 776-779) and the
marker pass (lines 347-350): empty query matches everything, otherwise the
lowercased query must occur in the lowercased place name or description. -/
def matchesSearch (searchQuery : String) (a : Activity) : Bool :=
  searchQuery.isEmpty
    || strIncludes a.placeName.toLower searchQuery.toLower
    || strIncludes a.description.toLower searchQuery.toLower

/-- Visibility predicate applied in both presentations:
`filters[a.type] && matchesSearch` (lines 352 and 774-780). -/
def activityVisible (filters : ActivityType → Bool) (searchQuery : String)
    (a : Activity) : Bool :=
  filters a.type && matchesSearch searchQuery a

/-- The filtered list the list presentation renders
(`activities.filter(...)`, lines 774-781).  A pure projection: the
underlying `activities` list is not modified. -/
def visibleActivities (filters : ActivityType → Bool) (searchQuery : String)
    (acts : List Activity) : List Activity :=
  acts.filter (activityVisible filters searchQuery)

/-! ## Marker building (`ItineraryView.tsx` lines 300-604)

The marker effect iterates over the full unfiltered `activities` with the
unfiltered position `index`: activities without coordinates are skipped
entirely (line 320, `lastCoords` not updated for them); for each
coordinate-bearing activity the displayed travel time / transport details
are computed from `lastCoords` (lines 326-345), an interactive marker is
created only when the activity is visible (line 352), and `lastCoords` is
then updated unconditionally (line 603). -/

/-- Per-coordinate-bearing-activity result of one step of the marker loop.
`visible` records whether an interactive marker (with popup) is created for
it (line 352); `idx` is the unfiltered position used in the popup button id
`btn-view-list-${index}` (line 426). -/
structure MarkerData where
  idx : ℕ
  act : Activity
  visible : Bool
  displayTravelTime : Option String
  displayTransportDetails : Option String
deriving DecidableEq, Repr

/-- The marker loop (lines 318-604) as a fold over the unfiltered activity
list.  `dist` abstracts the transcendental haversine
`getDistanceFromLatLonInKm` (lines 50-61); `i` is the running unfiltered
index, `lastCoords` the coordinates of the last coordinate-bearing activity
processed.  `displayTravelTime` and `displayTransportDetails` follow lines
326-345: for a TRAVEL activity with a previous coordinate at distance
strictly above 0.5 km, a missing (JS-falsy) field is backfilled from the
geo utilities; otherwise the raw field is kept. -/
def buildMarkersAux (dist : Coordinates → Coordinates → ℚ)
    (filters : ActivityType → Bool) (searchQuery : String) :
    ℕ → Option Coordinates → List Activity → List MarkerData
  | _, _, [] => []
  | i, lastCoords, act :: rest =>
    match act.coordinates with
    | none => buildMarkersAux dist filters searchQuery (i + 1) lastCoords rest
    | some c =>
      let displayTravelTime :=
        if act.type = ActivityType.TRAVEL then
          match lastCoords with
          | some lc =>
            if 1/2 < dist lc c then
              if strTruthy act.travelTime then act.travelTime
              else some (estimateTravelTime (dist lc c))
            else act.travelTime
          | none => act.travelTime
        else act.travelTime
      let displayTransportDetails :=
        if act.type = ActivityType.TRAVEL then
          match lastCoords with
          | some lc =>
            if 1/2 < dist lc c then
              if strTruthy act.transportDetails then act.transportDetails
              else some (suggestTransportDetails (dist lc c))
            else act.transportDetails
          | none => act.transportDetails
        else act.transportDetails
      { idx := i, act := act,
        visible := activityVisible filters searchQuery act,
        displayTravelTime := displayTravelTime,
        displayTransportDetails := displayTransportDetails } ::
        buildMarkersAux dist filters searchQuery (i + 1) (some c) rest

/-- The marker loop started at index 0 with no previous coordinate
(lines 303 and 318). -/
def buildMarkers (dist : Coordinates → Coordinates → ℚ)
    (filters : ActivityType → Bool) (searchQuery : String)
    (acts : List Activity) : List MarkerData :=
  buildMarkersAux dist filters searchQuery 0 none acts

/-! ## Comments (`ItineraryView.tsx` lines 95, 206-213, 843-847) -/

/-- Composite note key `day_<dayNumber>_<activityKey>` (line 207). -/
def commentKey (dayNumber : ℕ) (act : Activity) : String :=
  "day_" ++ toString dayNumber ++ "_" ++ getActivityKey act

/-- JS object update `{ ...comments, [key]: comment }` on the association
list model: the fresh binding shadows any older one under `lookup`. -/
def recordSet (m : List (String × String)) (k v : String) :
    List (String × String) :=
  (k, v) :: m

/-- Reading a note for display (`comments[key]`, lines 843-845). -/
def recordGet (m : List (String × String)) (k : String) : Option String :=
  m.lookup k

/-- Synchroniser state owned by `ItineraryView` (lines 87-110):
selected day, per-type filters, comments, per-entry expansion flags keyed by
numeric index, search query and the map/list pane toggle. -/
structure ViewState where
  dayNumber : ℕ
  comments : List (String × String)
  expandedActivities : List (ℕ × Bool)
  searchQuery : String
  isMapView : Bool
deriving DecidableEq, Repr

/-- `saveComment` (lines 206-213): store the note under the composite key of
the currently selected day and immediately hand the itinerary, with the full
updated comment map merged in, to the `onSave` collaborator.  Returns the new
view state and the `onSave` payload. -/
def saveComment (itinerary : ItineraryResult) (s : ViewState) (act : Activity)
    (comment : String) : ViewState × ItineraryResult :=
  let key := commentKey s.dayNumber act
  let newComments := recordSet s.comments key comment
  ({ s with comments := newComments },
   { itinerary with userComments := some newComments })

/-- Day selection (`setDayNumber`, line 683) together with the effect of
lines 162-165: switching the day resets the expansion flags and the search
query; comments are untouched. -/
def selectDay (s : ViewState) (d : ℕ) : ViewState :=
  { s with dayNumber := d, expandedActivities := [], searchQuery := "" }

/-! ## Marker click handling (`ItineraryView.tsx` lines 184-196, 456-468) -/

/-- DOM side effects of `onMarkerClick` modelled as data. -/
inductive UiEffect where
  | scrollTo (idx : ℕ)
  | highlightFor (idx : ℕ) (ms : ℕ)
deriving DecidableEq, Repr

/-- Expansion lookup: absent index renders collapsed (line 782). -/
def lookupExpanded (m : List (ℕ × Bool)) (i : ℕ) : Bool :=
  (m.lookup i).getD false

/-- `onMarkerClick` (lines 184-196): set `expandedActivities[index] = true`,
then, when the DOM element `activity-item-<index>` exists — the list renders
one element per entry of the filtered list, keyed by filtered position
(lines 781-790), so the element exists exactly when `index` is below the
filtered length — scroll it into view and apply a highlight that a timer
clears after 2000 ms. -/
def onMarkerClick (filteredLength : ℕ) (index : ℕ) (s : ViewState) :
    ViewState × List UiEffect :=
  let s2 := { s with expandedActivities := (index, true) :: s.expandedActivities }
  if index < filteredLength then
    (s2, [UiEffect.scrollTo index, UiEffect.highlightFor index 2000])
  else (s2, [])

/-- The popup view-in-list button handler (lines 456-468): when the single
pane layout currently shows the map, switch back to the list pane first, then
run `onMarkerClick` with the markers unfiltered index. -/
def viewInListClick (filteredLength : ℕ) (index : ℕ) (s : ViewState) :
    ViewState × List UiEffect :=
  if s.isMapView then
    onMarkerClick filteredLength index { s with isMapView := false }
  else onMarkerClick filteredLength index s

/-! ## Current-day resolution (`ItineraryView.tsx` lines 120-137) -/

/-- `days.find(d => d.dayNumber === dayNumber) || days[0]` (line 122). -/
def resolveCurrentDay (days : List DayPlan) (sel : ℕ) : Option DayPlan :=
  match days.find? (fun d => d.dayNumber == sel) with
  | some d => some d
  | none => days.head?

/-- Recovery actions offered by a rendered view. -/
inductive ViewAction where
  | reset
deriving DecidableEq, Repr

/-- Outcome of rendering `ItineraryView` for a selected day number. -/
inductive ViewRender where
  | errorView (actions : List ViewAction)
  | dayView (day : DayPlan)
deriving DecidableEq, Repr

/-- Lines 120-137: when no current day resolves (empty itinerary) the view
renders the terminal error card whose sole action button calls `onReset`;
otherwise the normal view over the current day. -/
def renderItinerary (it : ItineraryResult) (sel : ℕ) : ViewRender :=
  match resolveCurrentDay it.days sel with
  | some d => ViewRender.dayView d
  | none => ViewRender.errorView [ViewAction.reset]

/-! ## Save history (`src/unnamed/part_001` lines 35-61) -/

/-- JS truthiness of the optional numeric `timestamp`
(`newItinerary.timestamp ? ... : -1`, line 37): `undefined` and `0` are
falsy. -/
def jsTruthyTimestamp : Option ℕ → Bool
  | some t => t != 0
  | none => false

/-- JS `Array.prototype.findIndex` returning `none` for `-1`. -/
def jsFindIndex (p : α → Bool) : List α → Option ℕ
  | [] => none
  | x :: xs => if p x then some 0 else (jsFindIndex p xs).map (· + 1)

/-- `saveItineraryToHistory` (`part_001` lines 35-61).  `now` stands for
`Date.now()`.  With a truthy timestamp matching a stored entry, that slot is
overwritten, spliced out and unshifted to the front (lines 44-51, no cap
applied); otherwise the itinerary is stamped with `now`, prepended, and the
history truncated to 10 entries (lines 52-56).  Returns the updated history
and the itinerary actually stored. -/
def saveItineraryToHistory (now : ℕ) (newItinerary : ItineraryResult)
    (savedItineraries : List ItineraryResult) :
    List ItineraryResult × ItineraryResult :=
  let existingIndex : Option ℕ :=
    if jsTruthyTimestamp newItinerary.timestamp then
      jsFindIndex (fun i => i.timestamp == newItinerary.timestamp) savedItineraries
    else none
  match existingIndex with
  | some idx =>
    let itineraryWithDate := newItinerary
    let updatedHistory := ((savedItineraries.set idx itineraryWithDate).eraseIdx idx)
    (itineraryWithDate :: updatedHistory, itineraryWithDate)
  | none =>
    let itineraryWithDate := { newItinerary with timestamp := some now }
    ((itineraryWithDate :: savedItineraries).take 10, itineraryWithDate)

/-- Sequential saves: each pair carries the `Date.now()` value of that save. -/
def saveAllToHistory : List (ℕ × ItineraryResult) → List ItineraryResult →
    List ItineraryResult
  | [], h => h
  | (now, it) :: rest, h => saveAllToHistory rest (saveItineraryToHistory now it h).1

/-! ## Generation and error handling (`src/unnamed/part_000` lines 166-245,
`src/unnamed/part_001` lines 70-91) -/

/-- Possible outcomes of the external `ai.models.generateContent` call as
seen by `generateItinerary`: a response with truthy `text`, a response
without text, or a thrown error carrying a message. -/
inductive AiResponse where
  | text (s : String)
  | empty
  | threw (msg : String)
deriving DecidableEq, Repr

/-- The configuration error message thrown when no API key resolves
(`part_000` line 192). -/
def configErrorMsg : String :=
  "Configuration Error: API Key not configured. Please set \x27VITE_API_KEY\x27 in your environment variables."

/-- `generateItinerary` (`part_000` lines 166-245): with no API key (empty
after environment resolution) throw the configuration error before any call;
otherwise the external response either parses into a result tagged with the
request language, or the failure message propagates (`JSON.parse` and
rethrown call errors; a textless response throws
"No text response generated").  `parse` abstracts `JSON.parse`. -/
def generateItinerary (apiKey : String) (resp : AiResponse)
    (parse : String → Except String ItineraryResult) (lang : Language) :
    Except String ItineraryResult :=
  if apiKey.isEmpty then Except.error configErrorMsg
  else
    match resp with
    | AiResponse.text s =>
      match parse s with
      | Except.ok r => Except.ok { r with language := some lang }
      | Except.error m => Except.error m
    | AiResponse.empty => Except.error "No text response generated"
    | AiResponse.threw m => Except.error m

/-- Error classification of `handleGenerate` (`part_001` lines 79-87): a
message containing "API Key" or "configured" is surfaced as a configuration
error, anything else as the generic translated message
(`genericMsg` stands for `t(\x27error.generate\x27)`). -/
def classifyGenerationError (genericMsg msg : String) : String :=
  if strIncludes msg "API Key" || strIncludes msg "configured" then
    "Configuration Error: " ++ msg
  else genericMsg

/-- Top-level session state of the application root (`part_001` lines
13-15): Forming = no itinerary, Viewing = itinerary present. -/
structure AppState where
  itinerary : Option ItineraryResult
  loading : Bool
  error : Option String
deriving DecidableEq, Repr

/-- Net state transition of `handleGenerate` (`part_001` lines 70-91) once
the generation promise settles: success installs the itinerary and clears
the error; failure classifies the message and leaves the itinerary
untouched; `loading` is reset in both cases (`finally`). -/
def handleGenerateResult (genericMsg : String) (s : AppState)
    (r : Except String ItineraryResult) : AppState :=
  match r with
  | Except.ok it => { itinerary := some it, loading := false, error := none }
  | Except.error m =>
    { itinerary := s.itinerary, loading := false,
      error := some (classifyGenerationError genericMsg m) }

/-! ## Route reorderer (specification section 4.2)

The route reorderer is described in the specification but its implementation
is not among the files under `src/` (only the geo utilities it builds on
are).  The definitions below are modelled from the specification text. -/

/-- Modelled from the spec: one greedy selection step of the Route Reorderer
(spec section 4.2), whose implementation is missing from `src/`.  From the
unplaced pool, select the activity whose coordinate is nearest (by the
distance function) to the last placed coordinate; activities without
coordinates are treated as infinitely far and never selected; ties keep the
earlier activity.  Returns the selected activity and the pool with only that
activity removed (original relative order preserved), or `none` when no
candidate carries a coordinate. -/
def selectNearest (dist : Coordinates → Coordinates → ℚ) (lastC : Coordinates) :
    List Activity → Option (Activity × List Activity)
  | [] => none
  | a :: tl =>
    match a.coordinates with
    | some ca =>
      match selectNearest dist lastC tl with
      | some (b, rest) =>
        match b.coordinates with
        | some cb =>
          if dist lastC cb < dist lastC ca then some (b, a :: rest)
          else some (a, tl)
        | none => some (a, tl)
      | none => some (a, tl)
    | none =>
      match selectNearest dist lastC tl with
      | some (b, rest) => some (b, a :: rest)
      | none => none

/-- Modelled from the spec: the greedy loop of the Route Reorderer (spec
section 4.2).  Repeatedly append the nearest coordinate-bearing unplaced
activity to the last placed one; as soon as the candidate pool is
geometry-free (or the last placed activity has no coordinate, leaving every
distance undefined), append the remaining pool in its original order.
`fuel` is the pool length, enough for the pool to drain. -/
def greedyRoute (dist : Coordinates → Coordinates → ℚ) :
    ℕ → Option Coordinates → List Activity → List Activity
  | 0, _, pool => pool
  | _ + 1, none, pool => pool
  | fuel + 1, some lc, pool =>
    match selectNearest dist lc pool with
    | none => pool
    | some (b, rest) => b :: greedyRoute dist fuel b.coordinates rest

/-- Modelled from the spec: the Route Reorderer contract (spec section 4.2),
implementation missing from `src/`.  Sequences shorter than 3 are returned
unchanged; otherwise the first activity is the fixed anchor and the rest is
greedily reordered by nearest-neighbour distance from the anchor outward. -/
def reorderDayRoute (dist : Coordinates → Coordinates → ℚ)
    (acts : List Activity) : List Activity :=
  if acts.length < 3 then acts
  else
    match acts with
    | [] => acts
    | anchor :: rest => anchor :: greedyRoute dist rest.length anchor.coordinates rest

/-- A greedy selection returns a permutation decomposition of the pool. -/
theorem selectNearest_perm (dist : Coordinates → Coordinates → ℚ)
    (lastC : Coordinates) :
    ∀ (pool : List Activity) (b : Activity) (rest : List Activity),
      selectNearest dist lastC pool = some (b, rest) → pool.Perm (b :: rest) := by
  intro pool
  induction pool with
  | nil => intro b rest h; simp [selectNearest] at h
  | cons a tl ih =>
    intro b rest h
    simp only [selectNearest] at h
    cases ha : a.coordinates with
    | some ca =>
      simp only [ha] at h
      cases hr : selectNearest dist lastC tl with
      | none =>
        simp only [hr] at h
        simp only [Option.some.injEq, Prod.mk.injEq] at h
        obtain ⟨rfl, rfl⟩ := h
        exact List.Perm.refl _
      | some pr =>
        obtain ⟨b2, rest2⟩ := pr
        simp only [hr] at h
        cases hb : b2.coordinates with
        | none =>
          simp only [hb] at h
          simp only [Option.some.injEq, Prod.mk.injEq] at h
          obtain ⟨rfl, rfl⟩ := h
          exact List.Perm.refl _
        | some cb =>
          simp only [hb] at h
          by_cases hlt : dist lastC cb < dist lastC ca
          · rw [if_pos hlt] at h
            simp only [Option.some.injEq, Prod.mk.injEq] at h
            obtain ⟨h1, h2⟩ := h
            rw [← h1, ← h2]
            have htl := ih b2 rest2 hr
            exact (htl.cons a).trans (List.Perm.swap b2 a rest2)
          · rw [if_neg hlt] at h
            simp only [Option.some.injEq, Prod.mk.injEq] at h
            obtain ⟨rfl, rfl⟩ := h
            exact List.Perm.refl _
    | none =>
      simp only [ha] at h
      cases hr : selectNearest dist lastC tl with
      | none => simp only [hr] at h; simp at h
      | some pr =>
        obtain ⟨b2, rest2⟩ := pr
        simp only [hr] at h
        simp only [Option.some.injEq, Prod.mk.injEq] at h
        obtain ⟨h1, h2⟩ := h
        rw [← h1, ← h2]
        have htl := ih b2 rest2 hr
        exact (htl.cons a).trans (List.Perm.swap b2 a rest2)

/-- A greedy selection always picks a coordinate-bearing activity and leaves
the coordinate-less part of the pool untouched. -/
theorem selectNearest_props (dist : Coordinates → Coordinates → ℚ)
    (lastC : Coordinates) :
    ∀ (pool : List Activity) (b : Activity) (rest : List Activity),
      selectNearest dist lastC pool = some (b, rest) →
      b.coordinates.isSome = true ∧
      pool.filter (fun x => x.coordinates.isNone)
        = rest.filter (fun x => x.coordinates.isNone) := by
  intro pool
  induction pool with
  | nil => intro b rest h; simp [selectNearest] at h
  | cons a tl ih =>
    intro b rest h
    simp only [selectNearest] at h
    cases ha : a.coordinates with
    | some ca =>
      simp only [ha] at h
      have hafilter : (a :: tl).filter (fun x => x.coordinates.isNone)
          = tl.filter (fun x => x.coordinates.isNone) := by
        simp [List.filter_cons, ha]
      cases hr : selectNearest dist lastC tl with
      | none =>
        simp only [hr] at h
        simp only [Option.some.injEq, Prod.mk.injEq] at h
        obtain ⟨rfl, rfl⟩ := h
        exact ⟨by simp [ha], hafilter⟩
      | some pr =>
        obtain ⟨b2, rest2⟩ := pr
        simp only [hr] at h
        cases hb : b2.coordinates with
        | none =>
          simp only [hb] at h
          simp only [Option.some.injEq, Prod.mk.injEq] at h
          obtain ⟨rfl, rfl⟩ := h
          exact ⟨by simp [ha], hafilter⟩
        | some cb =>
          simp only [hb] at h
          by_cases hlt : dist lastC cb < dist lastC ca
          · rw [if_pos hlt] at h
            simp only [Option.some.injEq, Prod.mk.injEq] at h
            obtain ⟨h1, h2⟩ := h
            rw [← h1, ← h2]
            have htl := ih b2 rest2 hr
            refine ⟨by simp [hb], ?_⟩
            rw [hafilter, htl.2]
            simp [List.filter_cons, ha]
          · rw [if_neg hlt] at h
            simp only [Option.some.injEq, Prod.mk.injEq] at h
            obtain ⟨rfl, rfl⟩ := h
            exact ⟨by simp [ha], hafilter⟩
    | none =>
      simp only [ha] at h
      cases hr : selectNearest dist lastC tl with
      | none => simp only [hr] at h; simp at h
      | some pr =>
        obtain ⟨b2, rest2⟩ := pr
        simp only [hr] at h
        simp only [Option.some.injEq, Prod.mk.injEq] at h
        obtain ⟨h1, h2⟩ := h
        rw [← h1, ← h2]
        have htl := ih b2 rest2 hr
        refine ⟨htl.1, ?_⟩
        simp [List.filter_cons, ha, htl.2]

/-- The greedy loop outputs a permutation of its pool. -/
theorem greedyRoute_perm (dist : Coordinates → Coordinates → ℚ) :
    ∀ (fuel : ℕ) (last : Option Coordinates) (pool : List Activity),
      (greedyRoute dist fuel last pool).Perm pool := by
  intro fuel
  induction fuel with
  | zero => intro last pool; simp [greedyRoute]
  | succ n ih =>
    intro last pool
    cases last with
    | none => simp [greedyRoute]
    | some lc =>
      simp only [greedyRoute]
      cases hr : selectNearest dist lc pool with
      | none => exact List.Perm.refl _
      | some pr =>
        obtain ⟨b, rest⟩ := pr
        have h1 := ih b.coordinates rest
        have h2 := selectNearest_perm dist lc pool b rest hr
        exact (h1.cons b).trans h2.symm

/-- The greedy loop keeps the coordinate-less activities exactly as they
appear in the pool (same elements, same relative order). -/
theorem greedyRoute_filter_noCoord (dist : Coordinates → Coordinates → ℚ) :
    ∀ (fuel : ℕ) (last : Option Coordinates) (pool : List Activity),
      (greedyRoute dist fuel last pool).filter (fun x => x.coordinates.isNone)
        = pool.filter (fun x => x.coordinates.isNone) := by
  intro fuel
  induction fuel with
  | zero => intro last pool; simp [greedyRoute]
  | succ n ih =>
    intro last pool
    cases last with
    | none => simp [greedyRoute]
    | some lc =>
      simp only [greedyRoute]
      cases hr : selectNearest dist lc pool with
      | none => rfl
      | some pr =>
        obtain ⟨b, rest⟩ := pr
        obtain ⟨hb, hfil⟩ := selectNearest_props dist lc pool b rest hr
        have hbnone : b.coordinates.isNone = false := by
          cases hco : b.coordinates <;> simp [hco] at hb ⊢
        rw [List.filter_cons]
        simp only [hbnone, Bool.false_eq_true, if_neg, ite_false]
        rw [ih b.coordinates rest, hfil]

/-! ## Concrete fixtures used by witnesses and counterexamples -/

/-- Sample activity builder for concrete test inputs. -/
def sampleActivity (name : String) (ty : ActivityType)
    (co : Option Coordinates) : Activity :=
  { time := "10:00 AM", placeName := name, description := "desc",
    priceEstimate := "5", type := ty, address := none, locationUrl := none,
    coordinates := co, travelTime := none, transportDetails := none }

/-- A concrete distance function (all distances zero). -/
def distZero : Coordinates → Coordinates → ℚ := fun _ _ => 0

/-- A concrete distance function (all distances one kilometre). -/
def distOne : Coordinates → Coordinates → ℚ := fun _ _ => 1

/-- All four per-type filters enabled (the default state, lines 88-93). -/
def filtersAllOn : ActivityType → Bool := fun _ => true

def actA : Activity := sampleActivity "A" ActivityType.VISIT (some ⟨1, 1⟩)

def actB : Activity := sampleActivity "B" ActivityType.FOOD (some ⟨2, 2⟩)

def actC : Activity := sampleActivity "C" ActivityType.VISIT (some ⟨3, 3⟩)

def actD : Activity := sampleActivity "D" ActivityType.LODGING none

/-- Evaluation helper: `Rat.floor q = z` from the two bracketing inequalities. -/
theorem ratFloor_eq_of {q : ℚ} {z : ℤ} (h1 : (z : ℚ) ≤ q) (h2 : q < z + 1) :
    q.floor = z := by
  have a1 : z ≤ q.floor := Rat.le_floor.2 h1
  have a2 : ¬ (z + 1) ≤ q.floor := by
    intro hc
    have := Rat.le_floor.1 hc
    push_cast at this
    linarith
  omega

end Teruel

/-- C10: the travel-time estimator rounds the minutes component independently,
without carrying into the hours component: for the distance 59.7 km (strictly
under 60) it returns "60 min" rather than "1h 0m", and for 119.7 km (strictly
under 120) it returns "1h 60m".  (`estimateTravelTime`,
`ItineraryView.tsx` lines 65-72.) -/
theorem Teruel.estimateTravelTime_no_minute_carry :
    ((597/10 : ℚ) < 60 ∧ Teruel.estimateTravelTime (597/10) = "60 min") ∧
    ((1197/10 : ℚ) < 120 ∧ Teruel.estimateTravelTime (1197/10) = "1h 60m") := by
  constructor
  · refine ⟨by norm_num, ?_⟩
    have h1 : ((597 : ℚ)/10) / 60 < 1 := by norm_num
    simp only [Teruel.estimateTravelTime, Teruel.jsRound]
    rw [if_pos h1]
    have hf : (((597 : ℚ)/10) / 60 * 60 + 1/2).floor = 60 :=
      Teruel.ratFloor_eq_of (by norm_num) (by norm_num)
    rw [hf]
    rfl
  · refine ⟨by norm_num, ?_⟩
    have h1 : ¬ ((1197 : ℚ)/10) / 60 < 1 := by norm_num
    simp only [Teruel.estimateTravelTime, Teruel.jsRound]
    rw [if_neg h1]
    have hh : (((1197 : ℚ)/10) / 60).floor = 1 :=
      Teruel.ratFloor_eq_of (by norm_num) (by norm_num)
    rw [hh]
    have hm : ((((1197 : ℚ)/10) / 60 - ((1 : ℤ) : ℚ)) * 60 + 1/2).floor = 60 :=
      Teruel.ratFloor_eq_of (by push_cast; norm_num) (by push_cast; norm_num)
    rw [hm]
    rfl

/-- C1: for every day whose activity sequence has length at least 3, the
route-reordering operation keeps the first activity (the anchor) in first
position and returns a permutation of the input activities with no activity
duplicated or dropped; the greedy nearest-neighbour selection is the
definition of `selectNearest`/`greedyRoute` (modelled from spec section 4.2,
valid for every distance function, in particular the haversine
`distanceKm`); activities without coordinates are never selected as nearest
(definitional in `selectNearest`) and keep their original relative order
(the `filter` conjunct); every sequence of length 2 or fewer is returned
unchanged. -/
theorem Teruel.reorderDayRoute_contract (dist : Coordinates → Coordinates → ℚ)
    (acts : List Activity) :
    (acts.length ≤ 2 → reorderDayRoute dist acts = acts) ∧
    (reorderDayRoute dist acts).Perm acts ∧
    (∀ (a : Activity) (rest : List Activity), acts = a :: rest →
      (reorderDayRoute dist acts).head? = some a) ∧
    (reorderDayRoute dist acts).filter (fun x => x.coordinates.isNone)
      = acts.filter (fun x => x.coordinates.isNone) := by
  refine ⟨?_, ?_, ?_, ?_⟩
  · intro hle
    simp only [reorderDayRoute]
    rw [if_pos (by omega)]
  · by_cases hlt : acts.length < 3
    · simp only [reorderDayRoute]
      rw [if_pos hlt]
    · simp only [reorderDayRoute]
      rw [if_neg hlt]
      cases acts with
      | nil => exact List.Perm.refl _
      | cons a rest =>
        exact (greedyRoute_perm dist rest.length a.coordinates rest).cons a
  · intro a rest hacts
    subst hacts
    by_cases hlt : (a :: rest).length < 3
    · simp only [reorderDayRoute]
      rw [if_pos hlt]
      rfl
    · simp only [reorderDayRoute]
      rw [if_neg hlt]
      rfl
  · by_cases hlt : acts.length < 3
    · simp only [reorderDayRoute]
      rw [if_pos hlt]
    · simp only [reorderDayRoute]
      rw [if_neg hlt]
      cases acts with
      | nil => rfl
      | cons a rest =>
        simp only [List.filter_cons,
          greedyRoute_filter_noCoord dist rest.length a.coordinates rest]

/-- Witness for C1: concrete evaluation of the contract on a two-element day
(identity) and on a four-activity day (anchor kept first, permutation). -/
theorem Teruel.reorderDayRoute_contract_witness :
    Teruel.reorderDayRoute Teruel.distZero [Teruel.actA, Teruel.actB]
      = [Teruel.actA, Teruel.actB] ∧
    (Teruel.reorderDayRoute Teruel.distZero
      [Teruel.actA, Teruel.actB, Teruel.actC, Teruel.actD]).Perm
      [Teruel.actA, Teruel.actB, Teruel.actC, Teruel.actD] ∧
    (Teruel.reorderDayRoute Teruel.distZero
      [Teruel.actA, Teruel.actB, Teruel.actC, Teruel.actD]).head?
      = some Teruel.actA :=
  ⟨(Teruel.reorderDayRoute_contract Teruel.distZero [Teruel.actA, Teruel.actB]).1
      (by decide),
   (Teruel.reorderDayRoute_contract Teruel.distZero
      [Teruel.actA, Teruel.actB, Teruel.actC, Teruel.actD]).2.1,
   (Teruel.reorderDayRoute_contract Teruel.distZero
      [Teruel.actA, Teruel.actB, Teruel.actC, Teruel.actD]).2.2.1 Teruel.actA
      [Teruel.actB, Teruel.actC, Teruel.actD] rfl⟩

namespace Teruel

/-- A TRAVEL-type fixture with coordinates and no travel fields. -/
def actT : Activity := sampleActivity "T" ActivityType.TRAVEL (some ⟨5, 5⟩)

/-- The marker the pass produces for `actA` under default filters. -/
def markerA : MarkerData :=
  { idx := 0, act := actA, visible := true,
    displayTravelTime := none, displayTransportDetails := none }

/-- The marker pass processes exactly the coordinate-bearing activities, in
day order. -/
theorem buildMarkersAux_map_act (dist : Coordinates → Coordinates → ℚ)
    (f : ActivityType → Bool) (q : String) :
    ∀ (acts : List Activity) (i : ℕ) (last : Option Coordinates),
      (buildMarkersAux dist f q i last acts).map (fun m => m.act)
        = acts.filter (fun a => a.coordinates.isSome) := by
  intro acts
  induction acts with
  | nil => intro i last; rfl
  | cons a rest ih =>
    intro i last
    cases hc : a.coordinates with
    | none =>
      simp only [buildMarkersAux, hc]
      rw [ih]
      simp [List.filter_cons, hc]
    | some c =>
      simp only [buildMarkersAux, hc, List.map_cons]
      rw [ih]
      simp [List.filter_cons, hc]

/-- Every processed activity carries the shared visibility predicate. -/
theorem buildMarkersAux_visible_eq (dist : Coordinates → Coordinates → ℚ)
    (f : ActivityType → Bool) (q : String) :
    ∀ (acts : List Activity) (i : ℕ) (last : Option Coordinates)
      (m : MarkerData), m ∈ buildMarkersAux dist f q i last acts →
      m.visible = activityVisible f q m.act := by
  intro acts
  induction acts with
  | nil => intro i last m h; simp [buildMarkersAux] at h
  | cons a rest ih =>
    intro i last m h
    cases hc : a.coordinates with
    | none =>
      simp only [buildMarkersAux, hc] at h
      exact ih _ _ m h
    | some c =>
      simp only [buildMarkersAux, hc, List.mem_cons] at h
      cases h with
      | inl he => subst he; rfl
      | inr hm => exact ih _ _ m hm

/-- The interactive (visible) markers are exactly the coordinate-bearing
activities passing the shared visibility predicate, in day order. -/
theorem buildMarkersAux_visible_map (dist : Coordinates → Coordinates → ℚ)
    (f : ActivityType → Bool) (q : String) :
    ∀ (acts : List Activity) (i : ℕ) (last : Option Coordinates),
      ((buildMarkersAux dist f q i last acts).filter (fun m => m.visible)).map
          (fun m => m.act)
        = acts.filter (fun a => a.coordinates.isSome && activityVisible f q a) := by
  intro acts
  induction acts with
  | nil => intro i last; rfl
  | cons a rest ih =>
    intro i last
    cases hc : a.coordinates with
    | none =>
      simp only [buildMarkersAux, hc]
      rw [ih]
      simp [List.filter_cons, hc]
    | some c =>
      simp only [buildMarkersAux, hc]
      by_cases hv : activityVisible f q a = true
      · simp [List.filter_cons, hc, hv, ih]
      · have hv2 : activityVisible f q a = false := by
          revert hv; cases activityVisible f q a <;> simp
        simp [List.filter_cons, hc, hv2, ih]

/-- The index / activity / display fields of the marker pass do not depend
on the filters or the search query (only `visible` does). -/
theorem buildMarkersAux_display_indep (dist : Coordinates → Coordinates → ℚ)
    (f f' : ActivityType → Bool) (q q' : String) :
    ∀ (acts : List Activity) (i : ℕ) (last : Option Coordinates),
      (buildMarkersAux dist f q i last acts).map
          (fun m => (m.idx, m.act, m.displayTravelTime, m.displayTransportDetails))
        = (buildMarkersAux dist f' q' i last acts).map
          (fun m => (m.idx, m.act, m.displayTravelTime, m.displayTransportDetails)) := by
  intro acts
  induction acts with
  | nil => intro i last; rfl
  | cons a rest ih =>
    intro i last
    cases hc : a.coordinates with
    | none =>
      simp only [buildMarkersAux, hc]
      exact ih _ _
    | some c =>
      simp only [buildMarkersAux, hc, List.map_cons]
      rw [ih]

end Teruel

/-- C2 counterexample: the claim states that an activity is visible in the
map-marker presentation iff its type filter is on and the query matches,
but a coordinate-less activity (here `actD`, with every filter enabled and
an empty query) satisfies the predicate and is visible in the list while the
marker pass produces no marker for it at all. -/
theorem Teruel.visibility_counterexample :
    Teruel.activityVisible Teruel.filtersAllOn "" Teruel.actD = true ∧
    Teruel.visibleActivities Teruel.filtersAllOn "" [Teruel.actD] = [Teruel.actD] ∧
    Teruel.buildMarkers Teruel.distZero Teruel.filtersAllOn "" [Teruel.actD] = [] := by
  refine ⟨by decide, by decide, by decide⟩

/-- C2 (amended): the list presentation shows exactly the activities passing
`filters[type] && search`; the map-marker presentation processes exactly the
coordinate-bearing activities, and among those an interactive marker exists
iff the same predicate holds; this predicate is shared verbatim by both
presentations (`activityVisible`); filtering is a pure projection that
leaves the underlying day sequence untouched (the filtered list is a
sublist of it). -/
theorem Teruel.visibility_amended (dist : Teruel.Coordinates → Teruel.Coordinates → ℚ)
    (filters : Teruel.ActivityType → Bool) (q : String)
    (acts : List Teruel.Activity) :
    ((Teruel.buildMarkers dist filters q acts).map (fun m => m.act)
        = acts.filter (fun a => a.coordinates.isSome)) ∧
    (∀ m ∈ Teruel.buildMarkers dist filters q acts,
        m.visible = Teruel.activityVisible filters q m.act) ∧
    (((Teruel.buildMarkers dist filters q acts).filter (fun m => m.visible)).map
          (fun m => m.act)
        = acts.filter (fun a =>
            a.coordinates.isSome && Teruel.activityVisible filters q a)) ∧
    Teruel.visibleActivities filters q acts
        = acts.filter (Teruel.activityVisible filters q) ∧
    (Teruel.visibleActivities filters q acts).Sublist acts := by
  refine ⟨Teruel.buildMarkersAux_map_act dist filters q acts 0 none,
    fun m hm => Teruel.buildMarkersAux_visible_eq dist filters q acts 0 none m hm,
    Teruel.buildMarkersAux_visible_map dist filters q acts 0 none,
    rfl, List.filter_sublist _⟩

/-- Witness for C2 (amended): concrete evaluation on a one-activity day with
coordinates; the marker exists and its visibility equals the shared
predicate. -/
theorem Teruel.visibility_amended_witness :
    ((Teruel.buildMarkers Teruel.distZero Teruel.filtersAllOn "" [Teruel.actA]).map
        (fun m => m.act) = [Teruel.actA]) ∧
    Teruel.markerA.visible
      = Teruel.activityVisible Teruel.filtersAllOn "" Teruel.markerA.act := by
  constructor
  · have h := (Teruel.visibility_amended Teruel.distZero Teruel.filtersAllOn ""
      [Teruel.actA]).1
    rw [h]
    decide
  · exact (Teruel.visibility_amended Teruel.distZero Teruel.filtersAllOn ""
      [Teruel.actA]).2.1 Teruel.markerA (by decide)

/-- C3: for every TRAVEL activity lacking `travelTime` (respectively
`transportDetails`), the displayed value in the marker pass is backfilled
from `estimateTravelTime` (respectively `suggestTransportDetails`) applied
to the distance from the immediately preceding coordinate-bearing activity
exactly when that distance exceeds 0.5 km, and is left as the (blank) raw
field otherwise; coordinate-less activities are skipped without touching
the previous-coordinate state, and the index/activity/display projection of
the pass is independent of the filters and the search query, so the
preceding activity is taken from the full unfiltered day order and hiding
intermediate stops cannot change the computed values.  Stated for every
distance function, hence for the haversine `getDistanceFromLatLonInKm`. -/
theorem Teruel.travelBackfill_display (dist : Teruel.Coordinates → Teruel.Coordinates → ℚ)
    (f f' : Teruel.ActivityType → Bool) (q q' : String) :
    (∀ (i : ℕ) (last : Option Teruel.Coordinates) (act : Teruel.Activity)
        (rest : List Teruel.Activity), act.coordinates = none →
        Teruel.buildMarkersAux dist f q i last (act :: rest)
          = Teruel.buildMarkersAux dist f q (i + 1) last rest) ∧
    (∀ (i : ℕ) (lc : Teruel.Coordinates) (act : Teruel.Activity)
        (c : Teruel.Coordinates) (rest : List Teruel.Activity),
        act.coordinates = some c → act.type = Teruel.ActivityType.TRAVEL →
        Teruel.strTruthy act.travelTime = false →
        ((Teruel.buildMarkersAux dist f q i (some lc) (act :: rest)).head?).map
            (fun m => m.displayTravelTime)
          = some (if 1/2 < dist lc c
              then some (Teruel.estimateTravelTime (dist lc c))
              else act.travelTime)) ∧
    (∀ (i : ℕ) (lc : Teruel.Coordinates) (act : Teruel.Activity)
        (c : Teruel.Coordinates) (rest : List Teruel.Activity),
        act.coordinates = some c → act.type = Teruel.ActivityType.TRAVEL →
        Teruel.strTruthy act.transportDetails = false →
        ((Teruel.buildMarkersAux dist f q i (some lc) (act :: rest)).head?).map
            (fun m => m.displayTransportDetails)
          = some (if 1/2 < dist lc c
              then some (Teruel.suggestTransportDetails (dist lc c))
              else act.transportDetails)) ∧
    (∀ (i : ℕ) (act : Teruel.Activity) (c : Teruel.Coordinates)
        (rest : List Teruel.Activity), act.coordinates = some c →
        ((Teruel.buildMarkersAux dist f q i none (act :: rest)).head?).map
            (fun m => m.displayTravelTime) = some act.travelTime ∧
        ((Teruel.buildMarkersAux dist f q i none (act :: rest)).head?).map
            (fun m => m.displayTransportDetails) = some act.transportDetails) ∧
    (∀ (acts : List Teruel.Activity) (i : ℕ) (last : Option Teruel.Coordinates),
        (Teruel.buildMarkersAux dist f q i last acts).map
            (fun m => (m.idx, m.act, m.displayTravelTime, m.displayTransportDetails))
          = (Teruel.buildMarkersAux dist f' q' i last acts).map
            (fun m => (m.idx, m.act, m.displayTravelTime, m.displayTransportDetails))) := by
  refine ⟨?_, ?_, ?_, ?_, Teruel.buildMarkersAux_display_indep dist f f' q q'⟩
  · intro i last act rest hc
    simp [Teruel.buildMarkersAux, hc]
  · intro i lc act c rest hc ht htt
    simp [Teruel.buildMarkersAux, hc, ht, htt]
  · intro i lc act c rest hc ht htd
    simp [Teruel.buildMarkersAux, hc, ht, htd]
  · intro i act c rest hc
    constructor <;> simp [Teruel.buildMarkersAux, hc]

/-- Witness for C3: a concrete TRAVEL activity without `travelTime`, with a
preceding coordinate at distance 1 km (above the 0.5 km threshold), is
displayed with the backfilled estimate. -/
theorem Teruel.travelBackfill_display_witness :
    ((Teruel.buildMarkersAux Teruel.distOne Teruel.filtersAllOn "" 0
        (some ⟨0, 0⟩) [Teruel.actT]).head?).map (fun m => m.displayTravelTime)
      = some (some (Teruel.estimateTravelTime 1)) := by
  have h := (Teruel.travelBackfill_display Teruel.distOne Teruel.filtersAllOn
    Teruel.filtersAllOn "" "").2.1 0 ⟨0, 0⟩ Teruel.actT ⟨5, 5⟩ [] rfl rfl rfl
  rw [h]
  rw [if_pos (by norm_num [Teruel.distOne] :
    (1 : ℚ)/2 < Teruel.distOne ⟨0, 0⟩ ⟨5, 5⟩)]
  rfl

namespace Teruel

/-- Filters with the VISIT toggle disabled, others enabled. -/
def filtersNoVisit : ActivityType → Bool
  | ActivityType.VISIT => false
  | _ => true

/-- A view state currently showing the map pane of the single-pane layout. -/
def viewS0 : ViewState :=
  { dayNumber := 1, comments := [], expandedActivities := [],
    searchQuery := "", isMapView := true }

/-- Concrete days and itineraries for witnesses. -/
def day1 : DayPlan := { dayNumber := 1, title := "d1", activities := [] }

def day2 : DayPlan := { dayNumber := 2, title := "d2", activities := [] }

def itinSample : ItineraryResult :=
  { title := "t", description := "d", days := [day1, day2],
    timestamp := none, language := none, userComments := none }

def itinEmpty : ItineraryResult :=
  { title := "t", description := "d", days := [],
    timestamp := none, language := none, userComments := none }

end Teruel

/-- C6: saving a note stores it under the composite key
`day_<dayNumber>_<placeName>-<time>`; reading the note for the same activity
returns exactly the saved string, including after switching the selected day
away and back (day switches reset expansion and search but never touch the
comment map); the save immediately produces an `onSave` payload carrying the
full updated comment map merged into the itinerary. -/
theorem Teruel.commentRoundTrip (it : Teruel.ItineraryResult)
    (s : Teruel.ViewState) (act : Teruel.Activity) (comment : String) (d : ℕ) :
    Teruel.recordGet ((Teruel.saveComment it s act comment).1).comments
        (Teruel.commentKey s.dayNumber act) = some comment ∧
    (Teruel.selectDay (Teruel.selectDay (Teruel.saveComment it s act comment).1 d)
        s.dayNumber).dayNumber = s.dayNumber ∧
    Teruel.recordGet
        ((Teruel.selectDay (Teruel.selectDay (Teruel.saveComment it s act comment).1 d)
            s.dayNumber)).comments
        (Teruel.commentKey
          (Teruel.selectDay (Teruel.selectDay (Teruel.saveComment it s act comment).1 d)
            s.dayNumber).dayNumber act)
      = some comment ∧
    ((Teruel.saveComment it s act comment).2).userComments
      = some (((Teruel.saveComment it s act comment).1).comments) := by
  refine ⟨?_, rfl, ?_, rfl⟩
  · simp [Teruel.saveComment, Teruel.recordSet, Teruel.recordGet, List.lookup]
  · simp [Teruel.saveComment, Teruel.selectDay, Teruel.recordSet,
      Teruel.recordGet, List.lookup]

/-- C7 (code bug): markers are wired with the unfiltered activity index
(`btn-view-list-${index}`, `onMarkerClick(index)`), while the list keys its
entries (DOM id `activity-item-${idx}` and the expansion map) by position in
the filtered list.  With the VISIT filter disabled on the day
`[actA (VISIT), actB (FOOD)]`, the only interactive marker (for `actB`)
carries unfiltered index 1, but the list renders `actB` as its sole entry at
filtered index 0: clicking the marker (or its view-in-list button from the
map pane) switches panes yet leaves the entry of `actB` unexpanded and emits
no scroll or highlight effect, contradicting the claimed selection
synchronisation. -/
theorem Teruel.markerClick_index_mismatch :
    ((Teruel.buildMarkers Teruel.distZero Teruel.filtersNoVisit ""
        [Teruel.actA, Teruel.actB]).filter (fun m => m.visible)).map
        (fun m => (m.idx, m.act)) = [(1, Teruel.actB)] ∧
    Teruel.visibleActivities Teruel.filtersNoVisit "" [Teruel.actA, Teruel.actB]
      = [Teruel.actB] ∧
    Teruel.lookupExpanded
        ((Teruel.viewInListClick 1 1 Teruel.viewS0).1).expandedActivities 0 = false ∧
    (Teruel.viewInListClick 1 1 Teruel.viewS0).2 = [] ∧
    ((Teruel.viewInListClick 1 1 Teruel.viewS0).1).isMapView = false := by
  refine ⟨by decide, by decide, by decide, by decide, by decide⟩

/-- C9: with a nonempty itinerary exactly one day is current — the one whose
`dayNumber` equals the selection, or the first day when none matches — and
the view renders it; with zero days the view renders the terminal error card
whose only recovery action is reset. -/
theorem Teruel.currentDay_resolution (it : Teruel.ItineraryResult) (sel : ℕ) :
    (it.days = [] →
      Teruel.renderItinerary it sel
        = Teruel.ViewRender.errorView [Teruel.ViewAction.reset]) ∧
    (it.days ≠ [] → ∃ d, Teruel.resolveCurrentDay it.days sel = some d ∧
      d ∈ it.days ∧
      ((∃ e ∈ it.days, e.dayNumber = sel) → d.dayNumber = sel) ∧
      ((∀ e ∈ it.days, e.dayNumber ≠ sel) → it.days.head? = some d) ∧
      Teruel.renderItinerary it sel = Teruel.ViewRender.dayView d) := by
  constructor
  · intro h
    simp [Teruel.renderItinerary, Teruel.resolveCurrentDay, h]
  · intro h
    cases hf : it.days.find? (fun d => d.dayNumber == sel) with
    | some d =>
      refine ⟨d, ?_, ?_, ?_, ?_, ?_⟩
      · simp [Teruel.resolveCurrentDay, hf]
      · exact List.mem_of_find?_eq_some hf
      · intro _
        have hd := List.find?_some hf
        simpa using hd
      · intro hall
        exfalso
        have hd := List.find?_some hf
        have hmem := List.mem_of_find?_eq_some hf
        exact hall d hmem (by simpa using hd)
      · simp [Teruel.renderItinerary, Teruel.resolveCurrentDay, hf]
    | none =>
      obtain ⟨d0, hd0⟩ : ∃ d0, it.days.head? = some d0 := by
        cases hds : it.days with
        | nil => exact absurd hds h
        | cons x xs => exact ⟨x, rfl⟩
      refine ⟨d0, ?_, ?_, ?_, ?_, ?_⟩
      · simp [Teruel.resolveCurrentDay, hf, hd0]
      · exact List.mem_of_mem_head? hd0
      · intro hex
        exfalso
        obtain ⟨e, he, hesel⟩ := hex
        have hne := List.find?_eq_none.mp hf e he
        simp [hesel] at hne
      · intro _
        exact hd0
      · simp [Teruel.renderItinerary, Teruel.resolveCurrentDay, hf, hd0]

/-- Witness for C9: the empty itinerary renders the error card with only the
reset action; on a two-day itinerary with day 2 selected, the resolved
current day satisfies the contract. -/
theorem Teruel.currentDay_resolution_witness :
    Teruel.renderItinerary Teruel.itinEmpty 1
      = Teruel.ViewRender.errorView [Teruel.ViewAction.reset] ∧
    (∃ d, Teruel.resolveCurrentDay Teruel.itinSample.days 2 = some d ∧
      d ∈ Teruel.itinSample.days ∧
      ((∃ e ∈ Teruel.itinSample.days, e.dayNumber = 2) → d.dayNumber = 2) ∧
      ((∀ e ∈ Teruel.itinSample.days, e.dayNumber ≠ 2) →
        Teruel.itinSample.days.head? = some d) ∧
      Teruel.renderItinerary Teruel.itinSample 2 = Teruel.ViewRender.dayView d) :=
  ⟨(Teruel.currentDay_resolution Teruel.itinEmpty 1).1 rfl,
   (Teruel.currentDay_resolution Teruel.itinSample 2).2 (by decide)⟩

namespace Teruel

/-- A minimal itinerary fixture with a given title and timestamp. -/
def itinT (name : String) (ts : Option ℕ) : ItineraryResult :=
  { title := name, description := "d", days := [], timestamp := ts,
    language := none, userComments := none }

/-- Eleven distinct untimestamped itineraries with their save times. -/
def elevenSaves : List (ℕ × ItineraryResult) :=
  [(1, itinT "i1" none), (2, itinT "i2" none), (3, itinT "i3" none),
   (4, itinT "i4" none), (5, itinT "i5" none), (6, itinT "i6" none),
   (7, itinT "i7" none), (8, itinT "i8" none), (9, itinT "i9" none),
   (10, itinT "i10" none), (11, itinT "i11" none)]

/-- `jsFindIndex` only returns positions inside the list. -/
theorem jsFindIndex_lt_length {α : Type} (p : α → Bool) :
    ∀ (l : List α) (i : ℕ), jsFindIndex p l = some i → i < l.length := by
  intro l
  induction l with
  | nil => intro i h; simp [jsFindIndex] at h
  | cons x xs ih =>
    intro i h
    simp only [jsFindIndex] at h
    by_cases hp : p x = true
    · rw [if_pos hp] at h
      cases h
      simp
    · rw [if_neg hp] at h
      cases hj : jsFindIndex p xs with
      | none => rw [hj] at h; simp at h
      | some j =>
        rw [hj] at h
        simp at h
        have := ih j hj
        simp only [List.length_cons]
        omega

/-- Overwriting a slot and then erasing that same slot equals erasing it. -/
theorem set_eraseIdx {α : Type} (x : α) :
    ∀ (l : List α) (i : ℕ), (l.set i x).eraseIdx i = l.eraseIdx i := by
  intro l
  induction l with
  | nil => intro i; rfl
  | cons a as ih =>
    intro i
    cases i with
    | zero => rfl
    | succ n => simp [List.set, List.eraseIdx, ih]

/-- Truncating the second summand before an append does not change a
truncation of the whole to the same length. -/
theorem take_append_take {α : Type} (A B : List α) (n : ℕ) :
    (A ++ B.take n).take n = (A ++ B).take n := by
  rw [List.take_append_eq_append_take, List.take_append_eq_append_take,
    List.take_take, Nat.min_eq_left (Nat.sub_le n A.length)]

/-- Stamping an itinerary with its save time (`{ ...newItinerary, timestamp:
Date.now() }`, `part_001` line 54). -/
def stampSave (p : ℕ × ItineraryResult) : ItineraryResult :=
  { p.2 with timestamp := some p.1 }

/-- Saving a sequence of untimestamped itineraries stamps each with its save
time, prepends it and keeps the 10 most recent. -/
theorem saveAll_untimestamped :
    ∀ (L : List (ℕ × ItineraryResult)) (h : List ItineraryResult),
      (∀ p ∈ L, p.2.timestamp = none) → h.length ≤ 10 →
      saveAllToHistory L h
        = ((L.map stampSave).reverse ++ h).take 10 := by
  intro L
  induction L with
  | nil =>
    intro h _ hlen
    simp [saveAllToHistory, List.take_of_length_le hlen]
  | cons p L2 ih =>
    intro h hts hlen
    obtain ⟨now, it⟩ := p
    have hp : it.timestamp = none := hts (now, it) (List.mem_cons_self _ _)
    simp only [saveAllToHistory]
    have hsave : (saveItineraryToHistory now it h).1
        = ({ it with timestamp := some now } :: h).take 10 := by
      simp [saveItineraryToHistory, jsTruthyTimestamp, hp]
    rw [hsave]
    rw [ih _ (fun q hq => hts q (List.mem_cons_of_mem _ hq)) (List.length_take_le _ _)]
    rw [take_append_take]
    simp [stampSave, List.map_cons, List.reverse_cons, List.append_assoc]

/-- Stamping a save timestamp onto untimestamped itineraries is injective in
the itinerary. -/
theorem stamped_inj {a b : ItineraryResult} {x y : ℕ}
    (ha : a.timestamp = none) (hb : b.timestamp = none)
    (h : ({ a with timestamp := some x } : ItineraryResult)
        = { b with timestamp := some y }) : a = b := by
  cases a
  cases b
  simp_all

end Teruel

/-- C5: saving an itinerary whose (truthy) timestamp matches an existing
history entry replaces that entry, moves it to the front, preserves every
other entry in order, and does not change the history length. -/
theorem Teruel.saveHistory_update (now ts : ℕ) (newIt : Teruel.ItineraryResult)
    (saved : List Teruel.ItineraryResult) (idx : ℕ)
    (h1 : newIt.timestamp = some ts) (h2 : ts ≠ 0)
    (h3 : Teruel.jsFindIndex (fun i => i.timestamp == newIt.timestamp) saved
        = some idx) :
    (Teruel.saveItineraryToHistory now newIt saved).1
        = newIt :: saved.eraseIdx idx ∧
    ((Teruel.saveItineraryToHistory now newIt saved).1).length = saved.length ∧
    (Teruel.saveItineraryToHistory now newIt saved).2 = newIt := by
  have htruthy : Teruel.jsTruthyTimestamp newIt.timestamp = true := by
    simp [Teruel.jsTruthyTimestamp, h1, h2]
  have hidx : idx < saved.length := Teruel.jsFindIndex_lt_length _ saved idx h3
  have hmain : (Teruel.saveItineraryToHistory now newIt saved).1
      = newIt :: saved.eraseIdx idx := by
    simp only [Teruel.saveItineraryToHistory, htruthy, if_true, h3]
    rw [Teruel.set_eraseIdx]
  have hsnd : (Teruel.saveItineraryToHistory now newIt saved).2 = newIt := by
    simp only [Teruel.saveItineraryToHistory, htruthy, if_true, h3]
  refine ⟨hmain, ?_, hsnd⟩
  rw [hmain, List.length_cons, List.length_eraseIdx_add_one hidx]

/-- Witness for C5: updating the middle entry of a three-entry history moves
it (with the new content) to the front and keeps the length at 3. -/
theorem Teruel.saveHistory_update_witness :
    (Teruel.saveItineraryToHistory 999 (Teruel.itinT "upd" (some 200))
        [Teruel.itinT "one" (some 100), Teruel.itinT "two" (some 200),
         Teruel.itinT "three" (some 300)]).1
      = [Teruel.itinT "upd" (some 200), Teruel.itinT "one" (some 100),
         Teruel.itinT "three" (some 300)] ∧
    ((Teruel.saveItineraryToHistory 999 (Teruel.itinT "upd" (some 200))
        [Teruel.itinT "one" (some 100), Teruel.itinT "two" (some 200),
         Teruel.itinT "three" (some 300)]).1).length = 3 := by
  have h := Teruel.saveHistory_update 999 200 (Teruel.itinT "upd" (some 200))
    [Teruel.itinT "one" (some 100), Teruel.itinT "two" (some 200),
     Teruel.itinT "three" (some 300)] 1 rfl (by decide) (by decide)
  refine ⟨?_, ?_⟩
  · rw [h.1]
    rfl
  · rw [h.2.1]
    rfl

/-- C4: saving an untimestamped itinerary stamps it with the save time and
prepends it to the history (capped at 10); saving 11 distinct untimestamped
itineraries in sequence from an empty history retains exactly 10 entries,
with the most recently saved first and the first-saved evicted. -/
theorem Teruel.saveHistory_eleven (L : List (ℕ × Teruel.ItineraryResult))
    (hlen : L.length = 11)
    (hts : ∀ p ∈ L, p.2.timestamp = none)
    (hdup : (L.map (fun p => p.2)).Nodup) :
    (∀ (now : ℕ) (it : Teruel.ItineraryResult)
        (h : List Teruel.ItineraryResult), it.timestamp = none →
        (Teruel.saveItineraryToHistory now it h).1
          = ({ it with timestamp := some now } :: h).take 10) ∧
    (Teruel.saveAllToHistory L []).length = 10 ∧
    (∀ (tN : ℕ) (itN : Teruel.ItineraryResult), L.getLast? = some (tN, itN) →
        (Teruel.saveAllToHistory L []).head?
          = some { itN with timestamp := some tN }) ∧
    (∀ (t1 : ℕ) (it1 : Teruel.ItineraryResult), L.head? = some (t1, it1) →
        ({ it1 with timestamp := some t1 } : Teruel.ItineraryResult)
          ∉ Teruel.saveAllToHistory L []) := by
  cases L with
  | nil => simp at hlen
  | cons p1 L2 =>
  have hL2 : L2.length = 10 := by simpa using hlen
  have hR : Teruel.saveAllToHistory (p1 :: L2) []
      = (L2.map Teruel.stampSave).reverse := by
    rw [Teruel.saveAll_untimestamped _ _ hts (by simp)]
    rw [List.append_nil, List.map_cons, List.reverse_cons]
    rw [List.take_append_eq_append_take]
    have hlenrev : (L2.map Teruel.stampSave).reverse.length = 10 := by
      simp [hL2]
    rw [List.take_of_length_le (le_of_eq hlenrev), hlenrev]
    simp
  refine ⟨?_, ?_, ?_, ?_⟩
  · intro now it h ht
    simp [Teruel.saveItineraryToHistory, Teruel.jsTruthyTimestamp, ht]
  · rw [hR]
    simp [hL2]
  · intro tN itN hlast
    rw [hR, List.head?_reverse, List.getLast?_map]
    have hne : L2 ≠ [] := by
      intro hc
      rw [hc] at hL2
      simp at hL2
    have hcc : (p1 :: L2).getLast? = L2.getLast? := by
      cases L2 with
      | nil => exact absurd rfl hne
      | cons q qs => simp [List.getLast?_cons_cons]
    rw [hcc] at hlast
    rw [hlast]
    rfl
  · intro t1 it1 hhead hmem
    have hp1 : p1 = (t1, it1) := by simpa using hhead
    subst hp1
    rw [hR, List.mem_reverse] at hmem
    obtain ⟨p, hp, heq⟩ := List.mem_map.mp hmem
    simp only [Teruel.stampSave] at heq
    have hp2 : p.2.timestamp = none := hts p (List.mem_cons_of_mem _ hp)
    have h1ts : it1.timestamp = none := hts (t1, it1) (List.mem_cons_self _ _)
    have hpeq : p.2 = it1 := Teruel.stamped_inj hp2 h1ts heq
    have hin : p.2 ∈ L2.map (fun p => p.2) := List.mem_map_of_mem _ hp
    rw [hpeq] at hin
    have hnot : it1 ∉ L2.map (fun p => p.2) := by
      simp only [List.map_cons] at hdup
      exact (List.nodup_cons.mp hdup).1
    exact hnot hin

/-- Witness for C4: eleven concrete distinct untimestamped itineraries saved
in sequence leave exactly ten entries, the eleventh save first and the first
save evicted; a single untimestamped save is stamped and prepended. -/
theorem Teruel.saveHistory_eleven_witness :
    (Teruel.saveItineraryToHistory 5 (Teruel.itinT "x" none) []).1
      = [{ Teruel.itinT "x" none with timestamp := some 5 }] ∧
    (Teruel.saveAllToHistory Teruel.elevenSaves []).length = 10 ∧
    (Teruel.saveAllToHistory Teruel.elevenSaves []).head?
      = some { Teruel.itinT "i11" none with timestamp := some 11 } ∧
    ({ Teruel.itinT "i1" none with timestamp := some 1 } : Teruel.ItineraryResult)
      ∉ Teruel.saveAllToHistory Teruel.elevenSaves [] := by
  have h := Teruel.saveHistory_eleven Teruel.elevenSaves (by decide) (by decide)
    (by decide)
  refine ⟨?_, h.2.1, h.2.2.1 11 (Teruel.itinT "i11" none) (by decide),
    h.2.2.2 1 (Teruel.itinT "i1" none) (by decide)⟩
  rw [h.1 5 (Teruel.itinT "x" none) [] rfl]
  rfl

/-- C8 counterexample: the claim says any failure other than absent
credentials is surfaced as the generic generation error, but
`handleGenerate` classifies by substring: an external call failure whose
message happens to contain "API Key" — with credentials present — is
surfaced as a configuration error, not the generic one. -/
theorem Teruel.generationError_counterexample :
    Teruel.generateItinerary "valid-key"
        (Teruel.AiResponse.threw "API Key invalid")
        (fun _ => Except.error "parse") Teruel.Language.es
      = Except.error "API Key invalid" ∧
    Teruel.classifyGenerationError "GENERIC" "API Key invalid"
      = "Configuration Error: API Key invalid" ∧
    "Configuration Error: API Key invalid" ≠ "GENERIC" ∧
    (Teruel.handleGenerateResult "GENERIC"
        { itinerary := none, loading := true, error := none }
        (Except.error "API Key invalid")).error
      = some "Configuration Error: API Key invalid" := by
  refine ⟨rfl, by decide, by decide, by decide⟩

/-- C8 (amended): with absent credentials the generation operation fails
with the distinct configuration message before any call is made; the
session classifies a failure as a configuration error exactly when its
message contains "API Key" or "configured" (which the credentials-absent
message does), and surfaces any failure whose message contains neither
substring as the generic generation error; every failure leaves the
itinerary unchanged (the session stays in the forming state) and clears the
loading flag. -/
theorem Teruel.generationError_amended (genericMsg : String) :
    (∀ (resp : Teruel.AiResponse)
        (parse : String → Except String Teruel.ItineraryResult)
        (lang : Teruel.Language),
        Teruel.generateItinerary "" resp parse lang
          = Except.error Teruel.configErrorMsg) ∧
    Teruel.classifyGenerationError genericMsg Teruel.configErrorMsg
      = "Configuration Error: " ++ Teruel.configErrorMsg ∧
    (∀ m : String, Teruel.strIncludes m "API Key" = false →
        Teruel.strIncludes m "configured" = false →
        Teruel.classifyGenerationError genericMsg m = genericMsg) ∧
    (∀ (s : Teruel.AppState) (m : String),
        (Teruel.handleGenerateResult genericMsg s (Except.error m)).itinerary
            = s.itinerary ∧
        (Teruel.handleGenerateResult genericMsg s (Except.error m)).loading
            = false ∧
        (Teruel.handleGenerateResult genericMsg s (Except.error m)).error
            = some (Teruel.classifyGenerationError genericMsg m)) := by
  refine ⟨?_, ?_, ?_, ?_⟩
  · intro resp parse lang
    rfl
  · have hc : (Teruel.strIncludes Teruel.configErrorMsg "API Key"
        || Teruel.strIncludes Teruel.configErrorMsg "configured") = true := by decide
    simp [Teruel.classifyGenerationError, hc]
  · intro m h1 h2
    simp [Teruel.classifyGenerationError, h1, h2]
  · intro s m
    exact ⟨rfl, rfl, rfl⟩

/-- Witness for C8 (amended): empty credentials yield the configuration
error; the message "Network unreachable" contains neither substring and is
surfaced generically; the failing session keeps no itinerary. -/
theorem Teruel.generationError_amended_witness :
    Teruel.generateItinerary "" Teruel.AiResponse.empty
        (fun _ => Except.error "p") Teruel.Language.es
      = Except.error Teruel.configErrorMsg ∧
    Teruel.classifyGenerationError "GENERIC" "Network unreachable" = "GENERIC" ∧
    (Teruel.handleGenerateResult "GENERIC"
        { itinerary := none, loading := true, error := none }
        (Except.error "Network unreachable")).itinerary = none := by
  have h := Teruel.generationError_amended "GENERIC"
  exact ⟨h.1 Teruel.AiResponse.empty (fun _ => Except.error "p") Teruel.Language.es,
    h.2.2.1 "Network unreachable" (by decide) (by decide),
    (h.2.2.2 { itinerary := none, loading := true, error := none }
      "Network unreachable").1⟩
